import Mathlib

/-!
Verification development for the `tls_client` binding layer.

The repository consists of two Python modules:
* `tls_client/cffi.py` — loads a prebuilt native shared library via `ctypes`
  and declares argument/return types for the symbols it binds;
* `tls_client/update_lib.py` — a release-feed poller that keeps the local
  copy of that native library current.

The development below shallowly embeds both modules.  Pure computations
(path construction, version-file parsing, the update decision logic) are
translated as Lean functions; filesystem state is an explicit `Option String`
per file (none = absent); network results are parameters.  The behaviour of
the opaque native library itself (session store, cookie jar, buffer
ownership) is not present in the repository's sources; where a property
concerns it, the relevant operation is modelled from the specification's
contract, and each such definition is marked `Modelled from the spec:`.
-/

/-! ## FFI binding layer (`tls_client/cffi.py`) -/

/-- The ctypes type used in the binding declarations.  `cffi.py` only ever
declares `ctypes.c_char_p`, so the embedding needs a single constructor. -/
inductive CType where
  | c_char_p
deriving DecidableEq, Repr

/-- One bound symbol of the loaded native library: its name, its declared
`argtypes` (`none` when the module never assigns `argtypes`, as for
`destroyAll`), its declared `restype`, and the path of the library object the
symbol was taken from. -/
structure CBinding where
  name : String
  argtypes : Option (List CType)
  restype : CType
  lib : String
deriving DecidableEq, Repr

/-- The `library_path` f-string of cffi.py line 11: the package directory,
then `/dependencies/`, then the platform-specific dependency filename.
`get_dependency_filename` lives in `tls_client/utils.py` and is taken as
the parameter `dep`. -/
def library_path (root_dir dep : String) : String :=
  root_dir ++ "/dependencies/" ++ dep

/-- The `ctypes.cdll.LoadLibrary` calls executed when the module is imported
(cffi.py line 14): exactly one, at the constructed path. -/
def moduleLibraryLoads (root_dir dep : String) : List String :=
  [library_path root_dir dep]

/-- The full list of symbol bindings declared by `cffi.py`, in source order
(lines 21-52).  Every binding is an attribute of the single `library` object;
`destroyAll` never has `argtypes` assigned and only `restype` is set. -/
def cffiBindings (root_dir dep : String) : List CBinding :=
  [ { name := "request", argtypes := some [CType.c_char_p],
      restype := CType.c_char_p, lib := library_path root_dir dep },
    { name := "getCookiesFromSession", argtypes := some [CType.c_char_p],
      restype := CType.c_char_p, lib := library_path root_dir dep },
    { name := "addCookiesToSession", argtypes := some [CType.c_char_p],
      restype := CType.c_char_p, lib := library_path root_dir dep },
    { name := "freeMemory", argtypes := some [CType.c_char_p],
      restype := CType.c_char_p, lib := library_path root_dir dep },
    { name := "destroySession", argtypes := some [CType.c_char_p],
      restype := CType.c_char_p, lib := library_path root_dir dep },
    { name := "destroyAll", argtypes := none,
      restype := CType.c_char_p, lib := library_path root_dir dep } ]

/-- The number of distinct library functions bound by the FFI layer. -/
def boundFunctionCount (root_dir dep : String) : Nat :=
  ((cffiBindings root_dir dep).map CBinding.name).eraseDups.length

/-- C1 counterexample: the FFI layer does not bind exactly four distinct
library functions — at any concrete load path, the count is not 4. -/
theorem cffi_bindings_count_ne_four :
    boundFunctionCount "/pkg" "client.so" ≠ 4 := by
  decide

/-- C1 (amended): the FFI layer binds exactly six distinct library functions:
`request`, `getCookiesFromSession`, `addCookiesToSession`, `freeMemory`,
`destroySession`, and `destroyAll`. -/
theorem cffi_bindings_count_eq_six (root_dir dep : String) :
    boundFunctionCount root_dir dep = 6 := by
  rfl

/-- C2: the externally visible surface is exactly the six boundary
operations, in order — `request`, `getCookiesFromSession`,
`addCookiesToSession`, `freeMemory`, `destroySession`, `destroyAll` — each
bound as a symbol of the loaded native library, and nothing else. -/
theorem cffi_surface_exact (root_dir dep : String) :
    (cffiBindings root_dir dep).map CBinding.name =
      ["request", "getCookiesFromSession", "addCookiesToSession",
       "freeMemory", "destroySession", "destroyAll"] ∧
    (cffiBindings root_dir dep).all
      (fun b => b.lib = library_path root_dir dep) = true := by
  constructor
  · rfl
  · simp [cffiBindings]

/-- C3: every declared parameter type and every declared return type of
every bound operation is `ctypes.c_char_p`; the `destroyAll` binding
declares no parameters and returns a string. -/
theorem cffi_all_types_c_char_p (root_dir dep : String) :
    (cffiBindings root_dir dep).all
      (fun b => (b.argtypes.getD []).all (· = CType.c_char_p) &&
                (b.restype = CType.c_char_p)) = true ∧
    ((cffiBindings root_dir dep).filter (fun b => b.name = "destroyAll")).all
      (fun b => (b.argtypes = none) && (b.restype = CType.c_char_p)) = true := by
  constructor
  · simp [cffiBindings]
  · simp [cffiBindings]

/-- C5: the native library is loaded by path exactly once at module import,
from `dependencies/<platform-specific filename>` inside the package
directory, and every bound operation is an entry of that single library
object. -/
theorem cffi_single_library_load (root_dir dep : String) :
    moduleLibraryLoads root_dir dep =
      [root_dir ++ "/dependencies/" ++ dep] ∧
    (moduleLibraryLoads root_dir dep).length = 1 ∧
    (cffiBindings root_dir dep).all
      (fun b => b.lib = (moduleLibraryLoads root_dir dep).headD "") = true := by
  refine ⟨rfl, rfl, ?_⟩
  simp [cffiBindings, moduleLibraryLoads]

/-! ## Boundary memory ownership (spec §6, `freeMemory`) -/

/-- Modelled from the spec: the native library's caller-owned buffer state.
The library implementation is not in this repository; `cffi.py` only declares
the `request`/`getCookiesFromSession`/`freeMemory` symbols.  Per §6, each
successful `request`/`getCookiesFromSession` call returns a buffer the
boundary allocated for the caller; `next` generates fresh handles and `live`
is the set of currently allocated, not-yet-freed buffers. -/
structure BoundarySt where
  next : Nat
  live : List Nat
deriving DecidableEq, Repr

/-- Modelled from the spec: a boundary state is well formed when every live
handle was previously issued (is below the fresh-handle counter). -/
def BoundarySt.wf (st : BoundarySt) : Bool :=
  st.live.all (· < st.next)

/-- Modelled from the spec: allocation of a caller-owned result buffer, the
common effect of a successful `request` or `getCookiesFromSession` call —
returns the fresh handle and records it as live. -/
def allocResultBuffer (st : BoundarySt) : Nat × BoundarySt :=
  (st.next, ⟨st.next + 1, st.next :: st.live⟩)

/-- Modelled from the spec: a successful `request(spec)` call, viewed at the
memory-ownership level: it hands the caller a freshly allocated buffer. -/
def requestAlloc (st : BoundarySt) : Nat × BoundarySt :=
  allocResultBuffer st

/-- Modelled from the spec: a successful `getCookiesFromSession` call, viewed
at the memory-ownership level: it hands the caller a freshly allocated
buffer. -/
def getCookiesAlloc (st : BoundarySt) : Nat × BoundarySt :=
  allocResultBuffer st

/-- Modelled from the spec: `freeMemory(handle) -> status` releases a
previously returned buffer; releasing a handle that is not live fails. -/
def freeMemoryOp (st : BoundarySt) (h : Nat) : Option BoundarySt :=
  if h ∈ st.live then some ⟨st.next, st.live.erase h⟩ else none

theorem wf_not_mem_next {st : BoundarySt} (hwf : st.wf = true) :
    st.next ∉ st.live := by
  intro hmem
  have := List.all_eq_true.mp hwf _ hmem
  simp at this

/-- C4: for every well-formed boundary state, the buffer returned by a
successful `request` (resp. `getCookiesFromSession`) call is a handle that
was not previously live, that one `freeMemory` call releases (restoring the
pre-call live set), and that a second `freeMemory` call on the same handle
rejects — the exactly-once pairing of each returned buffer with one
`freeMemory` call. -/
theorem freeMemory_exactly_once (st : BoundarySt) (hwf : st.wf = true) :
    ((requestAlloc st).1 ∉ st.live ∧
      freeMemoryOp (requestAlloc st).2 (requestAlloc st).1 =
        some ⟨st.next + 1, st.live⟩ ∧
      freeMemoryOp ⟨st.next + 1, st.live⟩ (requestAlloc st).1 = none) ∧
    ((getCookiesAlloc st).1 ∉ st.live ∧
      freeMemoryOp (getCookiesAlloc st).2 (getCookiesAlloc st).1 =
        some ⟨st.next + 1, st.live⟩ ∧
      freeMemoryOp ⟨st.next + 1, st.live⟩ (getCookiesAlloc st).1 = none) := by
  have hfresh : st.next ∉ st.live := wf_not_mem_next hwf
  have halloc :
      (allocResultBuffer st).1 ∉ st.live ∧
      freeMemoryOp (allocResultBuffer st).2 (allocResultBuffer st).1 =
        some ⟨st.next + 1, st.live⟩ ∧
      freeMemoryOp ⟨st.next + 1, st.live⟩ (allocResultBuffer st).1 = none := by
    refine ⟨hfresh, ?_, ?_⟩
    · simp [allocResultBuffer, freeMemoryOp]
    · simp [allocResultBuffer, freeMemoryOp, hfresh]
  exact ⟨halloc, halloc⟩

/-- C4 witness: the exactly-once handshake at the empty initial state. -/
theorem freeMemory_exactly_once_witness :
    BoundarySt.wf ⟨0, []⟩ = true ∧
    (freeMemoryOp (requestAlloc ⟨0, []⟩).2 (requestAlloc ⟨0, []⟩).1 =
        some ⟨1, []⟩ ∧
      freeMemoryOp ⟨1, []⟩ (requestAlloc ⟨0, []⟩).1 = none) :=
  ⟨by decide,
    ⟨(freeMemory_exactly_once ⟨0, []⟩ (by decide)).1.2.1,
     (freeMemory_exactly_once ⟨0, []⟩ (by decide)).1.2.2⟩⟩

/-! ## Session store and cookie jar (spec §4.3, §6, §8) -/

/-- Modelled from the spec: a cookie's identity key — the (domain, path,
name) triple of §3's cookie-jar mapping. -/
structure CookieKey where
  domain : String
  path : String
  name : String
deriving DecidableEq, Repr

/-- Modelled from the spec: a cookie as injected through the boundary — its
(domain, path, name) key plus its value. -/
structure Cookie where
  key : CookieKey
  value : String
deriving DecidableEq, Repr

/-- Modelled from the spec: a session's cookie jar, the §3 mapping from
(domain, path, name) to the cookie value. -/
def Jar : Type := CookieKey → Option String

/-- Modelled from the spec: inserting one cookie into a jar with
overwrite-by-domain-path-name semantics. -/
def jarInsert (jar : Jar) (c : Cookie) : Jar :=
  fun k => if c.key = k then some c.value else jar k

/-- Modelled from the spec: merging a cookie list into a jar in list order,
later entries superseding earlier ones with the same (domain, path, name)
key — the §6 `addCookiesToSession` merge rule. -/
def mergeCookies (jar : Jar) (C : List Cookie) : Jar :=
  C.foldl jarInsert jar

/-- The value of the last cookie in `C` carrying the given key, if any: the
survivor of the domain/path/name collision rules within `C`. -/
def lookupLast : List Cookie → CookieKey → Option String
  | [], _ => none
  | c :: C, k =>
    match lookupLast C k with
    | some v => some v
    | none => if c.key = k then some c.value else none

theorem mergeCookies_apply (C : List Cookie) (jar : Jar) (k : CookieKey) :
    mergeCookies jar C k =
      match lookupLast C k with
      | some v => some v
      | none => jar k := by
  induction C generalizing jar with
  | nil => simp [mergeCookies, lookupLast]
  | cons c C ih =>
    show mergeCookies (jarInsert jar c) C k = _
    rw [ih]
    simp only [lookupLast]
    cases lookupLast C k with
    | some v => rfl
    | none => by_cases h : c.key = k <;> simp [jarInsert, h]

theorem mergeCookies_idem (jar : Jar) (C : List Cookie) :
    mergeCookies (mergeCookies jar C) C = mergeCookies jar C := by
  funext k
  rw [mergeCookies_apply, mergeCookies_apply]
  cases lookupLast C k with
  | some v => rfl
  | none => rfl

/-- Modelled from the spec: the session store — §4.3's map from a
caller-supplied session identifier to session state, of which the cookie jar
is the part the boundary cookie operations touch. -/
def SessionStore : Type := List (String × Jar)

/-- Modelled from the spec: the boundary's error kind for an unknown session
(§7: operations on unknown ids always return `NotFound`). -/
inductive BoundaryErr where
  | NotFound
deriving DecidableEq, Repr

/-- Modelled from the spec: `getCookiesFromSession(session_id)` — fails with
`NotFound` if the session is absent, returns the session's jar otherwise. -/
def getCookiesFromSessionOp (store : SessionStore) (sid : String) :
    Except BoundaryErr Jar :=
  match store.find? (fun p => p.1 = sid) with
  | some p => .ok p.2
  | none => .error BoundaryErr.NotFound

/-- Modelled from the spec: the jar update `addCookiesToSession` performs on
the addressed session, leaving every other session untouched. -/
def addCookiesUpdate (sid : String) (C : List Cookie) :
    String × Jar → String × Jar :=
  fun p => if p.1 = sid then (p.1, mergeCookies p.2 C) else p

/-- Modelled from the spec: `addCookiesToSession(session_id, cookies)` —
fails with `NotFound` if the session is absent, otherwise merges the given
cookies into the session's jar under the domain/path/name overwrite rules. -/
def addCookiesToSessionOp (store : SessionStore) (sid : String)
    (C : List Cookie) : Except BoundaryErr SessionStore :=
  if (store.find? (fun p => p.1 = sid)).isSome then
    .ok (store.map (addCookiesUpdate sid C))
  else .error BoundaryErr.NotFound

/-- Modelled from the spec: `destroySession(session_id)` — removes the
session (§4.3), failing with `NotFound` if it is absent. -/
def destroySessionOp (store : SessionStore) (sid : String) :
    Except BoundaryErr SessionStore :=
  if (store.find? (fun p => p.1 = sid)).isSome then
    .ok (store.filter (fun p => p.1 ≠ sid))
  else .error BoundaryErr.NotFound

/-- C6: destroying a session and then asking for its cookies yields
`NotFound` — a destroyed session's cookies are no longer retrievable. -/
theorem destroy_then_getCookies_notFound (store store' : SessionStore)
    (sid : String) (hdestroy : destroySessionOp store sid = .ok store') :
    getCookiesFromSessionOp store' sid = .error BoundaryErr.NotFound := by
  unfold destroySessionOp at hdestroy
  split at hdestroy
  · cases hdestroy
    unfold getCookiesFromSessionOp
    have hnone : (store.filter (fun p => p.1 ≠ sid)).find?
        (fun p => p.1 = sid) = none := by
      rw [List.find?_eq_none]
      intro p hp
      have := (List.mem_filter.mp hp).2
      simpa using this
    rw [hnone]
  · cases hdestroy

/-- C6 witness: destroying the one session of a concrete store and then
reading its cookies yields `NotFound`. -/
theorem destroy_then_getCookies_notFound_witness :
    destroySessionOp [("s1", (fun _ => none : Jar))] "s1" = .ok [] ∧
    getCookiesFromSessionOp [] "s1" = .error BoundaryErr.NotFound :=
  ⟨rfl, destroy_then_getCookies_notFound [("s1", fun _ => none)] [] "s1" rfl⟩

theorem addCookiesUpdate_fst (sid : String) (C : List Cookie)
    (p : String × Jar) : (addCookiesUpdate sid C p).1 = p.1 := by
  unfold addCookiesUpdate
  split <;> rfl

theorem addCookiesUpdate_idem (sid : String) (C : List Cookie)
    (p : String × Jar) :
    addCookiesUpdate sid C (addCookiesUpdate sid C p) = addCookiesUpdate sid C p := by
  unfold addCookiesUpdate
  by_cases h : p.1 = sid <;> simp [h, mergeCookies_idem]

theorem find?_map_addCookiesUpdate (store : SessionStore) (sid : String)
    (C : List Cookie) :
    (store.map (addCookiesUpdate sid C)).find? (fun p => p.1 = sid) =
      (store.find? (fun p => p.1 = sid)).map (addCookiesUpdate sid C) := by
  rw [List.find?_map]
  have hfun : ((fun p : String × Jar => decide (p.1 = sid)) ∘
      addCookiesUpdate sid C) = fun p : String × Jar => decide (p.1 = sid) := by
    funext p
    simp [Function.comp, addCookiesUpdate_fst]
  rw [hfun]

/-- C7: whenever `addCookiesToSession(S, C)` succeeds, a subsequent
`getCookiesFromSession(S)` succeeds and its jar includes every cookie of `C`
not superseded by the domain/path/name collision rules within `C` (i.e.
every cookie that is the last entry of `C` for its key), and applying the
same `C` a second time returns the jar-store unchanged — `addCookiesToSession`
is idempotent. -/
theorem addCookies_then_getCookies_idem (store store' : SessionStore)
    (sid : String) (C : List Cookie)
    (hadd : addCookiesToSessionOp store sid C = .ok store') :
    (∃ jar, getCookiesFromSessionOp store' sid = .ok jar ∧
        ∀ c ∈ C, lookupLast C c.key = some c.value → jar c.key = some c.value) ∧
    addCookiesToSessionOp store' sid C = .ok store' := by
  unfold addCookiesToSessionOp at hadd
  split at hadd
  case isTrue hsome =>
    cases hadd
    obtain ⟨p, hp⟩ := Option.isSome_iff_exists.mp hsome
    have hpsid : p.1 = sid := by
      have := List.find?_some hp
      simpa using this
    constructor
    · refine ⟨mergeCookies p.2 C, ?_, ?_⟩
      · unfold getCookiesFromSessionOp
        rw [find?_map_addCookiesUpdate, hp]
        simp [addCookiesUpdate, hpsid]
      · intro c _ hlast
        rw [mergeCookies_apply, hlast]
    · unfold addCookiesToSessionOp
      rw [find?_map_addCookiesUpdate, hp]
      rw [Option.map_some', Option.isSome_some, if_pos rfl, List.map_map]
      have hcomp : addCookiesUpdate sid C ∘ addCookiesUpdate sid C =
          addCookiesUpdate sid C := by
        funext q
        exact addCookiesUpdate_idem sid C q
      rw [hcomp]
  case isFalse => cases hadd

/-- Concrete material for the C7 witness: a one-session store and a
one-cookie injection. -/
def wJar : Jar := fun _ => none

def wStore : SessionStore := [("s1", wJar)]

def wCookies : List Cookie := [⟨⟨"example.com", "/", "a"⟩, "1"⟩]

def wStore' : SessionStore := wStore.map (addCookiesUpdate "s1" wCookies)

/-- C7 witness: the add-then-get inclusion and the idempotence of the add,
at a concrete store and cookie list. -/
theorem addCookies_then_getCookies_idem_witness :
    addCookiesToSessionOp wStore "s1" wCookies = .ok wStore' ∧
    ((∃ jar, getCookiesFromSessionOp wStore' "s1" = .ok jar ∧
        ∀ c ∈ wCookies, lookupLast wCookies c.key = some c.value →
          jar c.key = some c.value) ∧
      addCookiesToSessionOp wStore' "s1" wCookies = .ok wStore') :=
  ⟨rfl, addCookies_then_getCookies_idem wStore wStore' "s1" wCookies rfl⟩

/-! ## Version file handling (`tls_client/update_lib.py`) -/

/-- A one-character Python line boundary: the set `str.splitlines` splits on
(`\n`, `\r`, `\v`, `\f`, the file/group/record separators, NEL, and the
Unicode line/paragraph separators); the two-character boundary `\r\n` is
handled by `stripCR` below. -/
def isLineBoundary (c : Char) : Bool :=
  c = '\n' || c = '\r' || c = '\x0B' || c = '\x0C' ||
  c = '\x1C' || c = '\x1D' || c = '\x1E' || c = '\u0085' ||
  c = '\u2028' || c = '\u2029'

/-- Collapse every `\r\n` pair to a bare `\n`, so that it counts as a single
line boundary, as in `str.splitlines`. -/
def stripCR : List Char → List Char
  | [] => []
  | c :: rest =>
    if c = '\r' ∧ rest.head? = some '\n' then stripCR rest
    else c :: stripCR rest

/-- Split a `\r\n`-normalized character list at every line-boundary
character, without a trailing empty line after a final boundary. -/
def splitB : List Char → List (List Char)
  | [] => []
  | c :: rest =>
    if isLineBoundary c then [] :: splitB rest
    else
      match splitB rest with
      | [] => [[c]]
      | l :: ls => (c :: l) :: ls

/-- `content.splitlines(False)` — the line decomposition used by
`read_local_version` (update_lib.py line 40). -/
def pySplitlines (s : String) : List String :=
  (splitB (stripCR s.data)).map (fun l => ⟨l⟩)

/-- The record `read_local_version` builds: exactly the keys `version`,
`last_modified`, `last_check` (update_lib.py lines 42-46). -/
structure VersionInfo where
  version : String
  last_modified : String
  last_check : String
deriving DecidableEq, Repr

/-- `read_local_version()` (update_lib.py lines 36-47).  The filesystem
state of the version file is the explicit argument: `none` means the file
does not exist.  When the file exists and splits into at least three lines,
the first three lines become the record; otherwise the result is `None`. -/
def read_local_version (file : Option String) : Option VersionInfo :=
  match file with
  | none => none
  | some content =>
    match pySplitlines content with
    | v :: lm :: lc :: _ => some ⟨v, lm, lc⟩
    | _ => none

/-- `save_local_version(version, last_modified)` (update_lib.py lines
50-54): the content written to the version file.  `now` is the
`datetime.now(timezone.utc).isoformat()` string, passed explicitly. -/
def save_local_version (version last_modified now : String) : String :=
  version ++ "\n" ++ last_modified ++ "\n" ++ now

theorem stripCR_append_newline (v rest : List Char)
    (hv : v.all (fun c => !isLineBoundary c) = true) :
    stripCR (v ++ '\n' :: rest) = v ++ '\n' :: stripCR rest := by
  induction v with
  | nil =>
    show stripCR ('\n' :: rest) = '\n' :: stripCR rest
    simp only [stripCR]
    rw [if_neg (by simp)]
  | cons c v ih =>
    rw [List.all_cons, Bool.and_eq_true, Bool.not_eq_true'] at hv
    obtain ⟨hc, hv⟩ := hv
    have hcr : c ≠ '\r' := by
      intro h
      rw [h] at hc
      simp [isLineBoundary] at hc
    show stripCR (c :: (v ++ '\n' :: rest)) = c :: (v ++ '\n' :: stripCR rest)
    simp only [stripCR]
    rw [if_neg (by simp [hcr]), ih hv]

theorem splitB_append_newline (v rest : List Char)
    (hv : v.all (fun c => !isLineBoundary c) = true) :
    splitB (v ++ '\n' :: rest) = v :: splitB rest := by
  induction v with
  | nil =>
    show splitB ('\n' :: rest) = [] :: splitB rest
    simp only [splitB]
    rw [if_pos (by decide)]
  | cons c v ih =>
    rw [List.all_cons, Bool.and_eq_true, Bool.not_eq_true'] at hv
    obtain ⟨hc, hv⟩ := hv
    show splitB (c :: (v ++ '\n' :: rest)) = (c :: v) :: splitB rest
    simp only [splitB]
    rw [if_neg (by simp [hc]), ih hv]

theorem splitB_single (s : List Char) (hs : s ≠ [])
    (hb : s.all (fun c => !isLineBoundary c) = true) :
    splitB s = [s] := by
  induction s with
  | nil => exact absurd rfl hs
  | cons c rest ih =>
    rw [List.all_cons, Bool.and_eq_true, Bool.not_eq_true'] at hb
    obtain ⟨hc, hrest⟩ := hb
    simp only [splitB]
    rw [if_neg (by simp [hc])]
    by_cases h : rest = []
    · subst h
      rfl
    · rw [ih h hrest]

theorem stripCR_no_boundary (s : List Char)
    (hb : s.all (fun c => !isLineBoundary c) = true) :
    stripCR s = s := by
  induction s with
  | nil => rfl
  | cons c rest ih =>
    rw [List.all_cons, Bool.and_eq_true, Bool.not_eq_true'] at hb
    obtain ⟨hc, hrest⟩ := hb
    have hcr : c ≠ '\r' := by
      intro h
      rw [h] at hc
      simp [isLineBoundary] at hc
    simp only [stripCR]
    rw [if_neg (by simp [hcr]), ih hrest]

theorem data_ne_nil_of_ne_empty (s : String) (h : s ≠ "") : s.data ≠ [] := by
  intro hd
  apply h
  cases s
  simp at hd
  rw [hd]

/-- Lines of the saved content, when the three written fields are free of
line-boundary characters and the timestamp is nonempty. -/
theorem pySplitlines_save (version last_modified now : String)
    (hv : version.data.all (fun c => !isLineBoundary c) = true)
    (hlm : last_modified.data.all (fun c => !isLineBoundary c) = true)
    (hnow : now.data.all (fun c => !isLineBoundary c) = true)
    (hne : now ≠ "") :
    pySplitlines (save_local_version version last_modified now) =
      [version, last_modified, now] := by
  unfold pySplitlines save_local_version
  have hdata : (version ++ "\n" ++ last_modified ++ "\n" ++ now).data =
      version.data ++ '\n' :: (last_modified.data ++ '\n' :: now.data) := by
    simp [String.data_append]
  rw [hdata]
  have hstrip :
      stripCR (version.data ++ '\n' :: (last_modified.data ++ '\n' :: now.data)) =
        version.data ++ '\n' :: (last_modified.data ++ '\n' :: stripCR now.data) := by
    rw [stripCR_append_newline _ _ hv, stripCR_append_newline _ _ hlm]
  rw [hstrip, stripCR_no_boundary now.data hnow,
    splitB_append_newline _ _ hv, splitB_append_newline _ _ hlm,
    splitB_single now.data (data_ne_nil_of_ne_empty now hne) hnow]
  rfl

/-- C8 counterexample: `"a\x0Bb"` and `"x"` contain no newline character
(neither `\n` nor `\r`), yet the write/read round trip does not restore the
`version` field: `\x0B` (vertical tab) is a `str.splitlines` line boundary,
so the value reads back as `"a"`. -/
theorem save_then_read_counterexample :
    ("a\x0Bb".data.all (fun c => (c != '\n') && (c != '\r')) = true) ∧
    ("x".data.all (fun c => (c != '\n') && (c != '\r')) = true) ∧
    (read_local_version (some (save_local_version "a\x0Bb" "x" "2026"))).map
      VersionInfo.version ≠ some "a\x0Bb" := by
  refine ⟨by decide, by decide, ?_⟩
  decide

/-- C8 (amended): for every `version` and `last_modified` free of
`str.splitlines` line-boundary characters (and any nonempty boundary-free
timestamp, as `datetime.isoformat` always produces), saving and then reading
the version file restores both the `version` and `last_modified` fields. -/
theorem save_then_read_roundtrip (version last_modified now : String)
    (hv : version.data.all (fun c => !isLineBoundary c) = true)
    (hlm : last_modified.data.all (fun c => !isLineBoundary c) = true)
    (hnow : now.data.all (fun c => !isLineBoundary c) = true)
    (hne : now ≠ "") :
    read_local_version (some (save_local_version version last_modified now)) =
      some ⟨version, last_modified, now⟩ := by
  simp only [read_local_version]
  rw [pySplitlines_save version last_modified now hv hlm hnow hne]

/-- C8 witness: the round trip at concrete field values. -/
theorem save_then_read_roundtrip_witness :
    ("0.1.0".data.all (fun c => !isLineBoundary c) = true) ∧
    read_local_version
        (some (save_local_version "0.1.0" "etag-77" "2026-10-12T00:00:00")) =
      some ⟨"0.1.0", "etag-77", "2026-10-12T00:00:00"⟩ :=
  ⟨by decide,
    save_then_read_roundtrip "0.1.0" "etag-77" "2026-10-12T00:00:00"
      (by decide) (by decide) (by decide) (by decide)⟩

/-- C9: `read_local_version` returns `None` exactly when the version file is
absent or its content has fewer than three lines; otherwise it returns the
record of exactly `version`, `last_modified`, `last_check`, taken from the
first three lines in that order. -/
theorem read_local_version_shape (fs : Option String) :
    (fs = none → read_local_version fs = none) ∧
    (∀ content, fs = some content → (pySplitlines content).length < 3 →
      read_local_version fs = none) ∧
    (∀ content, fs = some content → 3 ≤ (pySplitlines content).length →
      ∃ r, read_local_version fs = some r ∧
        r.version = (pySplitlines content).getD 0 "" ∧
        r.last_modified = (pySplitlines content).getD 1 "" ∧
        r.last_check = (pySplitlines content).getD 2 "") := by
  refine ⟨?_, ?_, ?_⟩
  · intro h
    rw [h]
    rfl
  · intro content h hlen
    subst h
    simp only [read_local_version]
    rcases hl : pySplitlines content with _ | ⟨v, _ | ⟨lm, _ | ⟨lc, rest⟩⟩⟩
    · rfl
    · rfl
    · rfl
    · rw [hl] at hlen
      simp at hlen
      omega
  · intro content h hlen
    subst h
    simp only [read_local_version]
    rcases hl : pySplitlines content with _ | ⟨v, _ | ⟨lm, _ | ⟨lc, rest⟩⟩⟩
    · rw [hl] at hlen
      simp at hlen
    · rw [hl] at hlen
      simp at hlen
    · rw [hl] at hlen
      simp at hlen
    · exact ⟨⟨v, lm, lc⟩, rfl, rfl, rfl, rfl⟩

/-- C9 witness: at a concrete three-line file the record holds the first
three lines in order. -/
theorem read_local_version_shape_witness :
    ∃ r, read_local_version (some "v1\netag\n2026") = some r ∧
      r.version = (pySplitlines "v1\netag\n2026").getD 0 "" ∧
      r.last_modified = (pySplitlines "v1\netag\n2026").getD 1 "" ∧
      r.last_check = (pySplitlines "v1\netag\n2026").getD 2 "" :=
  (read_local_version_shape (some "v1\netag\n2026")).2.2 "v1\netag\n2026"
    rfl (by decide)

/-! ## Release polling (`update_lib` in `tls_client/update_lib.py`) -/

/-- Python `s.startswith(pre)` — `pre` is a prefix of `s`. -/
def pyStartswith (s pre : String) : Bool :=
  pre.data.isPrefixOf s.data

/-- `CURRENT_DEPENDENCY_FILENAME.rsplit(".", 1)[0]` (update_lib.py line 97):
the dependency filename with its last dot-extension removed; the whole
string when it has no dot. -/
def rsplitBase (s : String) : String :=
  match s.data.reverse.dropWhile (fun c => c != '.') with
  | [] => s
  | _ :: beforeDot => ⟨beforeDot.reverse⟩

/-- One entry of the release's `assets` array, with the two fields
`update_lib` reads. -/
structure ReleaseAsset where
  name : String
  browser_download_url : String
deriving DecidableEq, Repr

/-- The latest-release JSON, with the two fields `update_lib` reads. -/
structure Release where
  tag_name : String
  assets : List ReleaseAsset
deriving DecidableEq, Repr

/-- `CHECK_INTERVAL = timedelta(hours=24)` (update_lib.py line 14), in
seconds: timestamps are modelled as integer seconds. -/
def CHECK_INTERVAL : Int := 24 * 60 * 60

/-- Decimal digit accumulation for `fromisoformat`: `none` on any
non-digit. -/
def parseDecAux : List Char → Nat → Option Nat
  | [], acc => some acc
  | c :: rest, acc =>
    if c.isDigit then parseDecAux rest (acc * 10 + (c.toNat - 48)) else none

/-- `datetime.fromisoformat` over integer-second timestamps: parse an
optionally signed decimal string; `none` models the `ValueError` a
malformed string raises. -/
def fromisoformat (s : String) : Option Int :=
  match s.data with
  | [] => none
  | '-' :: rest =>
    if rest.isEmpty then none
    else (parseDecAux rest 0).map (fun n => -(n : Int))
  | l => (parseDecAux l 0).map (fun n => (n : Int))

/-- `datetime.isoformat` over integer-second timestamps: render as
decimal. -/
def isoformat (t : Int) : String :=
  toString t

/-- `should_check_update()` (update_lib.py lines 65-71): `True` when there
is no readable local version record, an error when the stored `last_check`
does not parse, and otherwise whether more than `CHECK_INTERVAL` has passed
since the stored `last_check`.  (`read_local_version` always includes the
`last_check` key, so the `'last_check' not in ...` branch never fires.) -/
def should_check_update (versionFile : Option String) (now : Int) :
    Except Unit Bool :=
  match read_local_version versionFile with
  | none => .ok true
  | some info =>
    match fromisoformat info.last_check with
    | none => .error ()
    | some last_check => .ok (now - last_check > CHECK_INTERVAL)

/-- The filesystem state `update_lib` touches: the version file and the
downloaded dependency file, each `none` when absent. -/
structure UpdateWorld where
  versionFile : Option String
  depFile : Option String
deriving DecidableEq, Repr

/-- The bytes `download_file` fetches, identified abstractly by their
URL. -/
def downloadContent (url : String) : String :=
  url

/-- Python `f"{x}"` for `x : str | None`: `None` renders as `"None"`. -/
def pyFormatOpt (o : Option String) : String :=
  o.getD "None"

/-- The asset-scanning tail of `update_lib` (update_lib.py lines 96-109):
find the first asset whose name starts with the dependency base name; on a
match, download it and save the version file; with no match, return with
nothing written.  The result pairs the final filesystem state with the list
of downloaded asset URLs. -/
def update_lib_download (w : UpdateWorld) (dep : String) (now : Int)
    (latest_version : String) (last_modified : Option String)
    (assets : List ReleaseAsset) : UpdateWorld × List String :=
  match assets.find? (fun a => pyStartswith a.name (rsplitBase dep)) with
  | some asset =>
    ({ versionFile := some (save_local_version latest_version
          (pyFormatOpt last_modified) (isoformat now)),
       depFile := some (downloadContent asset.browser_download_url) },
     [asset.browser_download_url])
  | none => (w, [])

/-- `update_lib()` (update_lib.py lines 74-110).  `api` is the outcome of
`get_latest_release`: an error models a raised HTTP exception, `none` the
304 Not-Modified early return, and `some (release, etag)` a new release
payload with the response's optional `Etag` header (saved as the
`last_modified` line). -/
def update_lib (w : UpdateWorld) (dep : String) (now : Int)
    (api : Except Unit (Option (Release × Option String))) :
    Except Unit (UpdateWorld × List String) :=
  match should_check_update w.versionFile now with
  | .error e => .error e
  | .ok chk =>
    if chk then
      match api with
      | .error e => .error e
      | .ok none => .ok (w, [])
      | .ok (some (latest_release, last_modified)) =>
        match read_local_version w.versionFile with
        | some info =>
          if latest_release.tag_name = info.version then .ok (w, [])
          else .ok (update_lib_download w dep now latest_release.tag_name
            last_modified latest_release.assets)
        | none =>
          .ok (update_lib_download w dep now latest_release.tag_name
            last_modified latest_release.assets)
    else .ok (w, [])

theorem update_lib_ok_cases (w : UpdateWorld) (dep : String) (now : Int)
    (api : Except Unit (Option (Release × Option String)))
    (w' : UpdateWorld) (dls : List String)
    (h : update_lib w dep now api = .ok (w', dls)) :
    (w' = w ∧ dls = []) ∨
    ∃ release last_modified,
      api = .ok (some (release, last_modified)) ∧
      update_lib_download w dep now release.tag_name last_modified
        release.assets = (w', dls) := by
  unfold update_lib at h
  split at h
  · cases h
  · split at h
    · split at h
      · cases h
      · cases h
        exact Or.inl ⟨rfl, rfl⟩
      · rename_i latest_release last_modified
        split at h
        · split at h
          · cases h
            exact Or.inl ⟨rfl, rfl⟩
          · injection h with h2
            exact Or.inr ⟨latest_release, last_modified, rfl, h2⟩
        · injection h with h2
          exact Or.inr ⟨latest_release, last_modified, rfl, h2⟩
    · cases h
      exact Or.inl ⟨rfl, rfl⟩

/-- C10: during `update_lib`, the version file is written only if something
was downloaded; when no asset of the latest release has a name starting with
the dependency filename's base name, `update_lib` downloads nothing and
leaves the filesystem unchanged; and when a match exists, only the first
matching asset in list order is downloaded. -/
theorem update_lib_write_after_download (w : UpdateWorld) (dep : String)
    (now : Int) (api : Except Unit (Option (Release × Option String))) :
    (∀ w' dls, update_lib w dep now api = .ok (w', dls) →
      w'.versionFile ≠ w.versionFile → dls ≠ []) ∧
    (∀ release last_modified w' dls,
      api = .ok (some (release, last_modified)) →
      release.assets.find? (fun a => pyStartswith a.name (rsplitBase dep)) =
        none →
      update_lib w dep now api = .ok (w', dls) → w' = w ∧ dls = []) ∧
    (∀ release last_modified asset w' dls,
      api = .ok (some (release, last_modified)) →
      release.assets.find? (fun a => pyStartswith a.name (rsplitBase dep)) =
        some asset →
      update_lib w dep now api = .ok (w', dls) →
      dls = [] ∨ dls = [asset.browser_download_url]) := by
  refine ⟨?_, ?_, ?_⟩
  · intro w' dls h hne
    rcases update_lib_ok_cases w dep now api w' dls h with
      ⟨hw, _⟩ | ⟨r, lm, _, hdl⟩
    · subst hw
      exact absurd rfl hne
    · unfold update_lib_download at hdl
      split at hdl
      · injection hdl with _ hb
        subst hb
        simp
      · injection hdl with ha _
        subst ha
        exact absurd rfl hne
  · intro r lm w' dls happi hfind h
    rcases update_lib_ok_cases w dep now api w' dls h with
      ⟨hw, hd⟩ | ⟨r2, lm2, happi2, hdl⟩
    · exact ⟨hw, hd⟩
    · have hinj := happi2.symm.trans happi
      injection hinj with h1
      injection h1 with h2
      injection h2 with h3 h4
      subst h3
      subst h4
      unfold update_lib_download at hdl
      rw [hfind] at hdl
      injection hdl with ha hb
      exact ⟨ha.symm, hb.symm⟩
  · intro r lm asset w' dls happi hfind h
    rcases update_lib_ok_cases w dep now api w' dls h with
      ⟨_, hd⟩ | ⟨r2, lm2, happi2, hdl⟩
    · exact Or.inl hd
    · have hinj := happi2.symm.trans happi
      injection hinj with h1
      injection h1 with h2
      injection h2 with h3 h4
      subst h3
      subst h4
      unfold update_lib_download at hdl
      rw [hfind] at hdl
      injection hdl with _ hb
      exact Or.inr hb.symm

/-- Concrete material for the C10 witness: a stale version file, a release
with two matching assets, and the world after the update. -/
def wUpd : UpdateWorld := ⟨some "v0\ne\n0", none⟩

def wRelease : Release :=
  ⟨"v1", [⟨"client-linux-amd64", "u1"⟩, ⟨"client-linux-arm", "u2"⟩]⟩

def wApi : Except Unit (Option (Release × Option String)) :=
  .ok (some (wRelease, none))

def wUpd' : UpdateWorld := ⟨some "v1\nNone\n100000", some "u1"⟩

/-- C10 witness: at a concrete stale world, the update downloads exactly the
first matching asset of two. -/
theorem update_lib_write_after_download_witness :
    update_lib wUpd "client.so" 100000 wApi = .ok (wUpd', ["u1"]) ∧
    ((["u1"] : List String) = [] ∨ (["u1"] : List String) = ["u1"]) :=
  ⟨rfl,
    (update_lib_write_after_download wUpd "client.so" 100000 wApi).2.2
      wRelease none ⟨"client-linux-amd64", "u1"⟩ wUpd' ["u1"] rfl rfl rfl⟩
